import Mathlib

/-!
Verification of the matching and anonymous-relay engine of a dating-bot
backend.  The record store (Supabase tables Users, Profiles, Likes, Matches,
Chats, Complaints, ViewedProfiles) is modelled as a state value holding one
list per table; every handler of the source (src/handlers/feed.py,
src/handlers/chat.py, src/handlers/registration.py and
src/utils/supabase_client.py) that the claims mention is translated into a
pure function on that state.  Timestamps are integers (seconds); the
PostgREST query combinators (eq, neq, gte, in_, not_.in_, or_, order, limit)
become list filters, sorts and takes.
-/

namespace TgBot

/-- Row of the Users table (id, tg_id, username, first/last name, blocked). -/
structure UserRow where
  id : Nat
  tg_id : Nat
  username : Option String := none
  first_name : Option String := none
  last_name : Option String := none
  is_blocked : Bool := false
  deriving Repr, DecidableEq

/-- Row of the Profiles table. -/
structure ProfileRow where
  id : Nat
  user_id : Nat
  name : String := ""
  gender : Option String := none
  age : Option Nat := none
  city : Option String := none
  photos : List String := []
  bio : Option String := none
  is_active : Bool := true
  boosted_until : Option Int := none
  created_at : Int := 0
  deriving Repr, DecidableEq

/-- Row of the Likes table; unique on (from_user_id, to_user_id). -/
structure LikeRow where
  from_user_id : Nat
  to_user_id : Nat
  message : Option String := none
  video_url : Option String := none
  deriving Repr, DecidableEq

/-- Row of the Matches table; canonical order keeps the lower id first. -/
structure MatchRow where
  id : Nat
  user1_id : Nat
  user2_id : Nat
  is_active : Bool := true
  deriving Repr, DecidableEq

/-- Row of the Chats table (an anonymous relay session of one match). -/
structure ChatRow where
  id : Nat
  match_id : Nat
  is_active : Bool := true
  updated_at : Int := 0
  deriving Repr, DecidableEq

/-- Row of the Complaints table. -/
structure ComplaintRow where
  from_user_id : Option Nat := none
  against_user_id : Option Nat := none
  reason : String
  deriving Repr, DecidableEq

/-- Row of the ViewedProfiles table. -/
structure ViewedRow where
  user_id : Nat
  profile_id : Nat
  viewed_at : Int
  deriving Repr, DecidableEq

/-- The record store: one list per table plus the serial id counters. -/
structure DB where
  users : List UserRow := []
  profiles : List ProfileRow := []
  likes : List LikeRow := []
  «matches» : List MatchRow := []
  chats : List ChatRow := []
  complaints : List ComplaintRow := []
  viewed : List ViewedRow := []
  next_user_id : Nat := 1
  next_profile_id : Nat := 1
  next_match_id : Nat := 1
  next_chat_id : Nat := 1
  deriving Repr, DecidableEq

/-- Insertion into a list sorted descending by the given key (stable). -/
def insertDescBy (key : α → Int) (x : α) : List α → List α
  | [] => [x]
  | y :: ys => if key y < key x then x :: y :: ys else y :: insertDescBy key x ys

/-- Sort a list descending by the given key; models an ORDER BY ... DESC. -/
def sortDescBy (key : α → Int) : List α → List α
  | [] => []
  | x :: xs => insertDescBy key x (sortDescBy key xs)

/-! ## Feed selector (src/handlers/feed.py) -/

/-- From feed.py _opposite_gender: male maps to female and vice versa; other
or unknown gender yields no filter. -/
def _opposite_gender : Option String → Option String
  | some g => if g = "male" then some "female"
              else if g = "female" then some "male"
              else none
  | none => none

/-- From feed.py _get_recently_viewed_ids: profile ids this user viewed in
the last `days` days (viewed_at at or after now minus the window). -/
def _get_recently_viewed_ids (db : DB) (user_id : Nat) (now : Int)
    (days : Int := 2) : List Nat :=
  ((db.viewed.filter fun r =>
      r.user_id == user_id && decide (now - days * 86400 ≤ r.viewed_at))).map
    (fun r => r.profile_id)

/-- The common feed filters of feed.py _fetch_next_profile (_apply_common_filters):
active, not the viewer's own profile, matching the optional gender and city
filters, and not among the recently viewed ids. -/
def commonFilters (viewerId : Nat) (gf cf : Option String)
    (viewedIds : List Nat) (p : ProfileRow) : Bool :=
  p.is_active && !(p.user_id == viewerId) &&
    (match gf with | some g => p.gender == some g | none => true) &&
    (match cf with | some c => p.city == some c | none => true) &&
    !(viewedIds.contains p.id)

/-- Whether a profile passes the boosted-pool filter gte(boosted_until, now). -/
def boostActive (now : Int) (p : ProfileRow) : Bool :=
  match p.boosted_until with
  | some b => decide (now ≤ b)
  | none => false

/-- Sort key of the boosted pool (order by boosted_until descending). -/
def boostKey (p : ProfileRow) : Int := p.boosted_until.getD 0

/-- The gender filter feed.py _fetch_next_profile derives from the viewer's
own profile (limit-1 lookup, then _opposite_gender). -/
def feedGenderFilter (db : DB) (viewerId : Nat) : Option String :=
  match ((db.profiles.filter fun p => p.user_id == viewerId)).head? with
  | some p => _opposite_gender p.gender
  | none => none

/-- The city filter feed.py _fetch_next_profile derives from the viewer's
own profile; the Python expression (city or None) maps the empty string to
no filter. -/
def feedCityFilter (db : DB) (viewerId : Nat) : Option String :=
  match ((db.profiles.filter fun p => p.user_id == viewerId)).head? with
  | some p =>
    match p.city with
    | some c => if c = "" then none else some c
    | none => none
  | none => none

/-- The filter set of query q1 of feed.py _fetch_next_profile: the common
filters plus the unexpired-boost condition. -/
def boostedPoolSrc (db : DB) (viewerId : Nat) (now : Int) : List ProfileRow :=
  db.profiles.filter fun p =>
    commonFilters viewerId (feedGenderFilter db viewerId)
      (feedCityFilter db viewerId)
      (_get_recently_viewed_ids db viewerId now) p && boostActive now p

/-- The filter set of query q2 of feed.py _fetch_next_profile: the common
filters alone. -/
def recencyPoolSrc (db : DB) (viewerId : Nat) (now : Int) : List ProfileRow :=
  db.profiles.filter fun p =>
    commonFilters viewerId (feedGenderFilter db viewerId)
      (feedCityFilter db viewerId)
      (_get_recently_viewed_ids db viewerId now) p

/-- From feed.py _fetch_next_profile: derive gender/city filters from the
viewer's own profile, exclude recently viewed profiles, then return the top
boosted candidate (boost window not expired, ordered by boosted_until
descending, limit 20) or, failing that, the most recently created candidate
(limit 50), or none. -/
def _fetch_next_profile (db : DB) (viewerId : Nat) (now : Int) :
    Option ProfileRow :=
  let boosted :=
    ((sortDescBy boostKey (boostedPoolSrc db viewerId now)).take 20)
  match boosted.head? with
  | some p => some p
  | none =>
    let others :=
      ((sortDescBy (fun p => p.created_at)
          (recencyPoolSrc db viewerId now)).take 50)
    others.head?

/-! ## Likes and match creation (src/handlers/feed.py) -/

/-- From feed.py _insert_like: upsert of the Likes row on conflict key
(from_user_id, to_user_id) — the whole payload of the conflicting row is
replaced, otherwise a new row is appended. -/
def _insert_like (db : DB) (fromId toId : Nat)
    (message_text video_url : Option String) : DB :=
  let payload : LikeRow :=
    { from_user_id := fromId, to_user_id := toId,
      message := message_text, video_url := video_url }
  if db.likes.any (fun l => l.from_user_id == fromId && l.to_user_id == toId) then
    { db with likes := db.likes.map fun l =>
        if l.from_user_id == fromId && l.to_user_id == toId then payload else l }
  else
    { db with likes := db.likes ++ [payload] }

/-- From feed.py _check_reciprocal_like: is there a Like from b to a? -/
def _check_reciprocal_like (db : DB) (a_user_id b_user_id : Nat) : Bool :=
  db.likes.any fun l =>
    l.from_user_id == b_user_id && l.to_user_id == a_user_id

/-- The Matches rows relating the unordered pair (a, b), in either stored
order (the filter of feed.py _get_match_between without the limit). -/
def matchesBetween (db : DB) (a b : Nat) : List MatchRow :=
  db.«matches».filter fun m =>
    (m.user1_id == a && m.user2_id == b) || (m.user1_id == b && m.user2_id == a)

/-- From feed.py _get_match_between: first Match row relating a and b in
either order (limit 1). -/
def _get_match_between (db : DB) (a b : Nat) : Option MatchRow :=
  (matchesBetween db a b).head?

/-- From feed.py _create_match: refuse a self pair, canonicalize to
(min, max), return any existing row for the pair, else insert a new row. -/
def _create_match (db : DB) (a_user_id b_user_id : Nat) :
    DB × Option MatchRow :=
  if a_user_id == b_user_id then (db, none)
  else
    let user1 := min a_user_id b_user_id
    let user2 := max a_user_id b_user_id
    match _get_match_between db user1 user2 with
    | some _ => (db, _get_match_between db user1 user2)
    | none =>
      let r : MatchRow :=
        { id := db.next_match_id, user1_id := user1, user2_id := user2,
          is_active := true }
      ({ db with «matches» := db.«matches» ++ [r],
                 next_match_id := db.next_match_id + 1 }, some r)

/-- The reciprocity step of the like handlers in feed.py (feed_actions,
like_with_message, like_with_video): if a reciprocal like exists, run
_create_match, else change nothing. -/
def reciprocalMatchStep (db : DB) (viewer target : Nat) :
    DB × Option MatchRow :=
  if _check_reciprocal_like db viewer target then _create_match db viewer target
  else (db, none)

/-- The Likes rows for the directed pair (f, t). -/
def likesFor (db : DB) (f t : Nat) : List LikeRow :=
  db.likes.filter fun l => l.from_user_id == f && l.to_user_id == t

/-- User-visible acknowledgement of the like branch of feed.py feed_actions. -/
inductive FeedAck where
  | likeSent
  | genericFailure
  deriving Repr, DecidableEq

/-- Result of the like branch of feed.py feed_actions. -/
structure FeedLikeResult where
  db : DB
  ack : FeedAck
  matchStep : Option MatchRow
  deriving Repr, DecidableEq

/-- feed.py _insert_like catches every record-store exception and only logs
it, so a failed upsert (upsertOk = false) leaves the store unchanged and
raises nothing to the caller. -/
def insertLikeAttempt (db : DB) (f t : Nat) (msg vurl : Option String)
    (upsertOk : Bool) : DB :=
  if upsertOk then _insert_like db f t msg vurl else db

/-- The like branch of feed.py feed_actions: attempt the Like upsert, then
unconditionally run the reciprocity check and match creation on whatever
state resulted, and answer the callback with the like-sent acknowledgement
(call.answer at the end of the branch runs on every path). -/
def feed_like_action (db : DB) (viewer target : Nat) (upsertOk : Bool) :
    FeedLikeResult :=
  let db1 := insertLikeAttempt db viewer target none none upsertOk
  let step := reciprocalMatchStep db1 viewer target
  { db := step.1, ack := .likeSent, matchStep := step.2 }

/-! ## Anonymous relay (src/handlers/chat.py) -/

/-- From chat.py _other_user_id: the match counterpart of my_user_id. -/
def _other_user_id (m : MatchRow) (my_user_id : Nat) : Option Nat :=
  if m.user1_id == my_user_id then some m.user2_id
  else if m.user2_id == my_user_id then some m.user1_id
  else none

/-- From chat.py _get_matches_for_user: Matches rows with the user on either
side, optionally restricted to active ones, truncated at the query limit. -/
def _get_matches_for_user (db : DB) (user_id : Nat) (active_only : Bool)
    (limit : Nat) : List MatchRow :=
  ((db.«matches».filter fun m =>
      (!active_only || m.is_active) &&
      (m.user1_id == user_id || m.user2_id == user_id))).take limit

/-- From chat.py _get_active_chats_for_matches. -/
def _get_active_chats_for_matches (db : DB) (match_ids : List Nat) :
    List ChatRow :=
  if match_ids.isEmpty then []
  else db.chats.filter fun c => c.is_active && match_ids.contains c.match_id

/-- From chat.py _get_match_by_id (limit 1 on the primary key). -/
def _get_match_by_id (db : DB) (mid : Nat) : Option MatchRow :=
  ((db.«matches».filter fun m => m.id == mid)).head?

/-- From chat.py _get_active_chat_for_user: the user's active chat together
with its match, choosing the latest chat by updated_at when several exist. -/
def _get_active_chat_for_user (db : DB) (user_id : Nat) :
    Option (ChatRow × MatchRow) :=
  let ms := _get_matches_for_user db user_id true 100
  let mids := ms.map fun m => m.id
  let chats := _get_active_chats_for_matches db mids
  match (sortDescBy (fun c => c.updated_at) chats).head? with
  | none => none
  | some chat =>
    match ms.find? (fun m => m.id == chat.match_id) with
    | none => none
    | some m => some (chat, m)

/-- From chat.py _has_active_chat_for_match. -/
def _has_active_chat_for_match (db : DB) (match_id : Nat) : Bool :=
  db.chats.any fun c => c.match_id == match_id && c.is_active

/-- From chat.py _deactivate_all_user_chats: deactivate every active chat
sitting on one of the user's active matches (query limit 200). -/
def _deactivate_all_user_chats (db : DB) (user_id : Nat) : DB :=
  let mids := (_get_matches_for_user db user_id true 200).map fun m => m.id
  if mids.isEmpty then db
  else
    { db with chats := db.chats.map fun c =>
        if mids.contains c.match_id && c.is_active then
          { c with is_active := false }
        else c }

/-- From chat.py _create_chat: insert a fresh active chat for the match. -/
def _create_chat (db : DB) (match_id : Nat) (now : Int) : DB × ChatRow :=
  let c : ChatRow :=
    { id := db.next_chat_id, match_id := match_id, is_active := true,
      updated_at := now }
  ({ db with chats := db.chats ++ [c], next_chat_id := db.next_chat_id + 1 }, c)

/-- Outcome of chat.py cmd_start_chat. -/
inductive StartChatResult where
  | noMatches
  | allBusy
  | started (chatId : Nat)
  deriving Repr, DecidableEq

/-- From chat.py cmd_start_chat: take the user's active matches (limit 50),
pick the first one without an active chat, deactivate all of the user's
chats, then insert the new active chat for the chosen match. -/
def cmd_start_chat (db : DB) (user_id : Nat) (now : Int) :
    DB × StartChatResult :=
  let ms := _get_matches_for_user db user_id true 50
  if ms.isEmpty then (db, .noMatches)
  else
    match ms.find? (fun m => !(_has_active_chat_for_match db m.id)) with
    | none => (db, .allBusy)
    | some candidate =>
      let db1 := _deactivate_all_user_chats db user_id
      let r := _create_chat db1 candidate.id now
      (r.1, .started r.2.id)

/-- Outcome of chat.py cmd_end_chat. -/
inductive EndChatResult where
  | noActiveChat
  | ended (chatId : Nat)
  deriving Repr, DecidableEq

/-- From chat.py cmd_end_chat: deactivate the user's current active chat. -/
def cmd_end_chat (db : DB) (user_id : Nat) : DB × EndChatResult :=
  match _get_active_chat_for_user db user_id with
  | none => (db, .noActiveChat)
  | some (chat, _m) =>
    ({ db with chats := db.chats.map fun c =>
         if c.id == chat.id then { c with is_active := false } else c },
     .ended chat.id)

/-- Outcome of chat.py cmd_block_user. -/
inductive BlockResult where
  | noActiveChat
  | blocked (otherId : Nat)
  deriving Repr, DecidableEq

/-- From chat.py cmd_block_user: mark the counterpart of the active chat
blocked and deactivate that chat. -/
def cmd_block_user (db : DB) (user_id : Nat) : DB × BlockResult :=
  match _get_active_chat_for_user db user_id with
  | none => (db, .noActiveChat)
  | some (chat, m) =>
    let other := (_other_user_id m user_id).getD 0
    ({ db with
        users := db.users.map fun u =>
          if u.id == other then { u with is_blocked := true } else u,
        chats := db.chats.map fun c =>
          if c.id == chat.id then { c with is_active := false } else c },
     .blocked other)

/-! ## Report (src/handlers/chat.py cmd_report) -/

/-- The Python expression text.partition(sp)[2] for sp a single space: the
part of the string after the first space, empty when there is no space. -/
def afterFirstSpace (s : String) : String :=
  match s.data.dropWhile (fun c => !(c == ' ')) with
  | [] => ""
  | _ :: rest => ⟨rest⟩

/-- The Python str.strip(): drop leading and trailing whitespace. -/
def pyStrip (s : String) : String :=
  ⟨((s.data.dropWhile Char.isWhitespace).reverse.dropWhile
      Char.isWhitespace).reverse⟩

/-- Outcome of chat.py cmd_report. -/
inductive ReportResult where
  | usage
  | sent
  deriving Repr, DecidableEq

/-- From chat.py cmd_report: trim the text after the command word; reject if
empty, else append one Complaint row aimed at the counterpart of the active
chat when one exists. -/
def cmd_report (db : DB) (user_id : Nat) (text : String) : DB × ReportResult :=
  let reason := pyStrip (afterFirstSpace text)
  if reason = "" then (db, .usage)
  else
    let target : Option Nat :=
      match _get_active_chat_for_user db user_id with
      | some (_c, m) => _other_user_id m user_id
      | none => none
    ({ db with complaints := db.complaints ++
        [{ from_user_id := some user_id, against_user_id := target,
           reason := reason }] }, .sent)

/-! ## Contact exchange (src/handlers/chat.py cb_share_contact) -/

/-- From chat.py _tg_id: resolve a Users row id to its telegram id. -/
def _tg_id (db : DB) (users_id : Nat) : Option Nat :=
  (((db.users.filter fun u => u.id == users_id)).map fun u => u.tg_id).head?

/-- The two callback actions of the contact-exchange keyboard. -/
inductive CbAction where
  | approve
  | reject
  deriving Repr, DecidableEq

/-- Message payloads sent by chat.py cb_share_contact, keyed by wording. -/
inductive CbPayload where
  | approvedContact (contactTg : Nat)
  | counterpartRejected
  | youRejected
  deriving Repr, DecidableEq

/-- Callback acknowledgement of chat.py cb_share_contact. -/
inductive CbAck where
  | matchNotFound
  | approved
  | rejected
  deriving Repr, DecidableEq

/-- From chat.py cb_share_contact: look the match up by id; on approve send
each party the other's contact when both telegram ids resolve; on reject
send user1 the counterpart-rejected text and user2 the you-rejected text.
The handler never consults the Chats table and never looks at which user
pressed the button. -/
def cb_share_contact (db : DB) (action : CbAction) (mid : Nat) :
    List (Nat × CbPayload) × CbAck :=
  match _get_match_by_id db mid with
  | none => ([], .matchNotFound)
  | some m =>
    let tga := _tg_id db m.user1_id
    let tgb := _tg_id db m.user2_id
    match action with
    | .approve =>
      match tga, tgb with
      | some a, some b =>
        ([(a, .approvedContact b), (b, .approvedContact a)], .approved)
      | _, _ => ([], .approved)
    | .reject =>
      ((match tga with | some a => [(a, .counterpartRejected)] | none => []) ++
       (match tgb with | some b => [(b, .youRejected)] | none => []),
       .rejected)

/-! ## Profile persistence (src/handlers/registration.py,
src/utils/supabase_client.py) -/

/-- The dialogue data handed to registration.py _create_or_update_profile. -/
structure RegData where
  name : String := ""
  gender : Option String := none
  age : Option Nat := none
  city : Option String := none
  photos : List String := []
  bio : Option String := none
  username : Option String := none
  first_name : Option String := none
  last_name : Option String := none
  deriving Repr, DecidableEq

/-- From supabase_client.py upsert_user_basic: upsert of the Users row on
conflict key tg_id, writing only tg_id/username/first_name/last_name. -/
def upsert_user_basic (db : DB) (tg : Nat)
    (username first_name last_name : Option String) : DB :=
  if db.users.any (fun u => u.tg_id == tg) then
    { db with users := db.users.map fun u =>
        if u.tg_id == tg then
          { u with username := username, first_name := first_name,
                   last_name := last_name }
        else u }
  else
    let u : UserRow :=
      { id := db.next_user_id, tg_id := tg, username := username,
        first_name := first_name, last_name := last_name, is_blocked := false }
    { db with users := db.users ++ [u],
              next_user_id := db.next_user_id + 1 }

/-- From supabase_client.py get_user_by_tg_id (limit 1). -/
def get_user_by_tg_id (db : DB) (tg : Nat) : Option UserRow :=
  ((db.users.filter fun u => u.tg_id == tg)).head?

/-- The Profiles rows belonging to the given user. -/
def profilesFor (db : DB) (uid : Nat) : List ProfileRow :=
  db.profiles.filter fun p => p.user_id == uid

/-- The update payload of registration.py _create_or_update_profile applied
to a row: it carries user_id, name, gender, age, city, photos, bio and
is_active, and neither boosted_until nor created_at. -/
def profileUpdatePayload (uid : Nat) (data : RegData) (p : ProfileRow) :
    ProfileRow :=
  { p with user_id := uid, name := data.name, gender := data.gender,
           age := data.age, city := data.city, photos := data.photos,
           bio := data.bio, is_active := true }

/-- From registration.py _create_or_update_profile: upsert the Users row,
look the user up, check for an existing profile (limit 1); update it in
place with the dialogue payload when present (the payload carries neither
boosted_until nor created_at, so both survive), else insert a new profile
boosted for 24 hours with created_at defaulting to now. -/
def _create_or_update_profile (db : DB) (tg : Nat) (data : RegData)
    (now : Int) : DB :=
  let db := upsert_user_basic db tg data.username data.first_name data.last_name
  match get_user_by_tg_id db tg with
  | none => db
  | some dbu =>
    match ((db.profiles.filter fun p => p.user_id == dbu.id)).head? with
    | some ex =>
      { db with profiles := db.profiles.map fun p =>
          if p.id == ex.id then profileUpdatePayload dbu.id data p else p }
    | none =>
      let p : ProfileRow :=
        { id := db.next_profile_id, user_id := dbu.id, name := data.name,
          gender := data.gender, age := data.age, city := data.city,
          photos := data.photos, bio := data.bio, is_active := true,
          boosted_until := some (now + 86400), created_at := now }
      { db with profiles := db.profiles ++ [p],
                next_profile_id := db.next_profile_id + 1 }

/-! ## Concrete stores used to exercise the operations -/

/-- Four likes inserted through the like upsert: 1 and 2 like each other,
and 2 and 3 like each other. -/
def c1_likes : DB :=
  _insert_like (_insert_like (_insert_like (_insert_like {} 1 2 none none)
    2 1 none none) 2 3 none none) 3 2 none none

/-- Reciprocity detection for the pair (2, 3) creates the first match. -/
def c1_m1 : DB := (reciprocalMatchStep c1_likes 2 3).1

/-- Reciprocity detection for the pair (1, 2) creates the second match. -/
def c1_m2 : DB := (reciprocalMatchStep c1_m1 1 2).1

/-- User 3 starts a chat (lands on the match between 2 and 3). -/
def c1_s1 : DB := (cmd_start_chat c1_m2 3 10).1

/-- User 1 then starts a chat (lands on the match between 1 and 2). -/
def c1_s2 : DB := (cmd_start_chat c1_s1 1 20).1

/-- Store with users 1 and 2 (telegram ids 101 and 102) and one match. -/
def c7db : DB :=
  { users := [⟨1, 101, none, none, none, false⟩,
              ⟨2, 102, none, none, none, false⟩],
    «matches» := [⟨1, 1, 2, true⟩] }

/-- Store in which user 2 already likes user 1 but no match exists. -/
def c8db : DB := { likes := [⟨2, 1, none, none⟩] }

/-- The boosted candidate profile of the feed-selector store below. -/
def c4p : ProfileRow :=
  { id := 2, user_id := 2, name := "B", gender := some "female",
    city := some "P", is_active := true, boosted_until := some 300000,
    created_at := 100 }

/-- Feed store: viewer 1 is male in city P; candidates 2 (boosted until
300000) and 3 (not boosted, newer) are female in P; the viewer recently
viewed profile 4. -/
def c4db : DB :=
  { profiles := [
      { id := 1, user_id := 1, name := "V", gender := some "male",
        city := some "P", is_active := true },
      c4p,
      { id := 3, user_id := 3, name := "R", gender := some "female",
        city := some "P", is_active := true, created_at := 200 }],
    viewed := [⟨1, 4, 199999⟩] }

/-- First registration run of telegram user 500. -/
def c5data : RegData :=
  { name := "N", gender := some "male", age := some 25, city := some "P",
    photos := ["u1"], bio := some "b1" }

/-- Second registration run of the same user with changed fields. -/
def c5data2 : RegData :=
  { name := "M", gender := some "male", age := some 26, city := some "Q",
    photos := ["u2"], bio := some "b2" }

/-- The store after telegram user 500 completed registration once. -/
def c5db1 : DB := _create_or_update_profile {} 500 c5data 1000

/-- Store with users 7 and 8 (telegram ids 701 and 802), their match of id
3, and no chat at all. -/
def c10db : DB :=
  { users := [⟨7, 701, none, none, none, false⟩,
              ⟨8, 802, none, none, none, false⟩],
    «matches» := [⟨3, 7, 8, true⟩] }

/-! ## Derived state measures used by the claims -/

/-- The number of active chats sitting on the user's active matches — the
quantity bounded by the at-most-one-active-chat invariant. -/
def activeChatCountFor (db : DB) (uid : Nat) : Nat :=
  ((db.chats.filter fun c =>
      c.is_active && db.«matches».any fun m =>
        m.is_active && m.id == c.match_id &&
        (m.user1_id == uid || m.user2_id == uid))).length

/-! ## Lemmas about the sorting and truncation combinators -/

theorem length_insertDescBy (key : α → Int) (x : α) :
    ∀ l : List α, (insertDescBy key x l).length = l.length + 1
  | [] => rfl
  | y :: ys => by
    simp only [insertDescBy]
    split
    · simp
    · simp [length_insertDescBy key x ys]

theorem length_sortDescBy (key : α → Int) :
    ∀ l : List α, (sortDescBy key l).length = l.length
  | [] => rfl
  | x :: xs => by
    simp [sortDescBy, length_insertDescBy, length_sortDescBy key xs]

theorem mem_insertDescBy {key : α → Int} {x z : α} :
    ∀ {l : List α}, z ∈ insertDescBy key x l → z = x ∨ z ∈ l
  | [], h => Or.inl (by simpa [insertDescBy] using h)
  | y :: ys, h => by
    simp only [insertDescBy] at h
    split at h
    · rcases List.mem_cons.mp h with h1 | h1
      · exact Or.inl h1
      · exact Or.inr h1
    · rcases List.mem_cons.mp h with h1 | h1
      · exact Or.inr (h1 ▸ List.mem_cons_self y ys)
      · rcases mem_insertDescBy h1 with h2 | h2
        · exact Or.inl h2
        · exact Or.inr (List.mem_cons_of_mem _ h2)

theorem mem_sortDescBy {key : α → Int} {z : α} :
    ∀ {l : List α}, z ∈ sortDescBy key l → z ∈ l
  | [], h => by simp [sortDescBy] at h
  | x :: xs, h => by
    simp only [sortDescBy] at h
    rcases mem_insertDescBy h with h | h
    · simp [h]
    · exact List.mem_cons_of_mem _ (mem_sortDescBy h)

theorem head?_sortDescBy_ge (key : α → Int) :
    ∀ (l : List α) (h : α), (sortDescBy key l).head? = some h →
      ∀ z ∈ l, key z ≤ key h
  | [], h, hh => by simp [sortDescBy] at hh
  | x :: xs, h, hh => by
    intro z hz
    simp only [sortDescBy] at hh
    cases hs : sortDescBy key xs with
    | nil =>
      have hxs : xs = [] := by
        have := congrArg List.length hs
        simpa [length_sortDescBy] using this
      subst hxs
      simp [sortDescBy, insertDescBy] at hh
      rcases List.mem_singleton.mp (by simpa using hz) with hzx
      simp [hzx, ← hh]
    | cons y ys =>
      rw [hs] at hh
      have hy : ∀ w ∈ xs, key w ≤ key y :=
        head?_sortDescBy_ge key xs y (by rw [hs]; rfl)
      simp only [insertDescBy] at hh
      split at hh
      · next hlt =>
        have hhx : h = x := by simpa using hh.symm
        subst hhx
        rcases List.mem_cons.mp hz with hzx | hzxs
        · simp [hzx]
        · exact le_of_lt (lt_of_le_of_lt (hy z hzxs) hlt)
      · next hnlt =>
        have hhy : h = y := by simpa using hh.symm
        subst hhy
        rcases List.mem_cons.mp hz with hzx | hzxs
        · simpa [hzx] using le_of_not_lt hnlt
        · exact hy z hzxs

theorem head?_take_succ (l : List α) (n : Nat) :
    (l.take (n + 1)).head? = l.head? := by
  cases l <;> rfl

theorem mem_insertDescBy_iff {key : α → Int} {x z : α} :
    ∀ {l : List α}, z ∈ insertDescBy key x l ↔ z = x ∨ z ∈ l
  | [] => by simp [insertDescBy]
  | y :: ys => by
    have ih : z ∈ insertDescBy key x ys ↔ z = x ∨ z ∈ ys :=
      mem_insertDescBy_iff
    simp only [insertDescBy]
    split
    · simp [List.mem_cons]
    · simp [List.mem_cons, ih]
      tauto

theorem mem_sortDescBy_iff {key : α → Int} {z : α} :
    ∀ {l : List α}, z ∈ sortDescBy key l ↔ z ∈ l
  | [] => Iff.rfl
  | x :: xs => by
    have ih : z ∈ sortDescBy key xs ↔ z ∈ xs := mem_sortDescBy_iff
    simp [sortDescBy, mem_insertDescBy_iff, ih, List.mem_cons]

/-! ## Claim theorems -/

/-- C1, counterexample: starting from the empty store, four like upserts,
two reciprocity detections and two StartChat operations leave user 2 with
two active chats across their matches — both StartChat calls succeed, and
the at-most-one bound fails for the counterpart of the newly created chat. -/
theorem startChat_counterpart_two_active_chats :
    (cmd_start_chat c1_m2 3 10).2 = .started 1 ∧
      (cmd_start_chat c1_s1 1 20).2 = .started 2 ∧
      activeChatCountFor c1_s2 2 = 2 := by decide

/-- C7, code evaluation at the failing input: on the reject callback for
the match between user 1 (telegram 101) and user 2 (telegram 102), the
handler always sends the counterpart-rejected notice to user 1 and the
you-rejected confirmation to user 2, keyed to the match positions rather
than to whoever pressed reject — so when user 1 is the rejecter the
wordings are swapped. -/
theorem share_contact_reject_wording_by_position :
    cb_share_contact c7db .reject 1 =
      ([(101, .counterpartRejected), (102, .youRejected)], .rejected) := by
  decide

/-- C8, counterexample: with user 2 already liking user 1 and the Like
upsert failing, the like branch still runs the reciprocity check, creates
the match and acknowledges the like as sent, while the Like row itself was
never written. -/
theorem like_upsert_failure_still_creates_match :
    (feed_like_action c8db 1 2 false).matchStep =
        some ⟨1, 1, 2, true⟩ ∧
      (feed_like_action c8db 1 2 false).ack = .likeSent ∧
      (feed_like_action c8db 1 2 false).db.likes = c8db.likes := by decide

/-- C8, amended: when the Like upsert fails the error is swallowed — the
store keeps its likes unchanged, yet the reciprocity check and match
creation still run on the unchanged state and the user is acknowledged
with the like-sent message, never with a failure. -/
theorem feed_like_action_on_upsert_failure (db : DB) (viewer target : Nat) :
    (feed_like_action db viewer target false).db =
        (reciprocalMatchStep db viewer target).1 ∧
      (feed_like_action db viewer target false).ack = .likeSent ∧
      (feed_like_action db viewer target false).db.likes = db.likes ∧
      (feed_like_action db viewer target false).matchStep =
        (reciprocalMatchStep db viewer target).2 := by
  refine ⟨rfl, rfl, ?_, rfl⟩
  show (reciprocalMatchStep db viewer target).1.likes = db.likes
  unfold reciprocalMatchStep _create_match
  split
  · split
    · rfl
    · cases hm : _get_match_between db (min viewer target) (max viewer target) <;>
        simp [hm]
  · rfl

/-- C9: match creation refuses to act on a self pair, and any row of the
store after a call is either an old row or canonically ordered with
user1_id strictly below user2_id. -/
theorem create_match_no_self_and_canonical (db : DB) (a b : Nat) :
    _create_match db a a = (db, none) ∧
      ∀ r ∈ (_create_match db a b).1.«matches»,
        r ∈ db.«matches» ∨ r.user1_id < r.user2_id := by
  constructor
  · simp [_create_match]
  · intro r hr
    unfold _create_match at hr
    split at hr
    · exact Or.inl hr
    · next hab =>
      rcases hm : _get_match_between db (min a b) (max a b) with _ | m
      · simp only [hm] at hr
        rcases List.mem_append.mp hr with h | h
        · exact Or.inl h
        · have hr' := List.mem_singleton.mp h
          subst hr'
          exact Or.inr (min_lt_max.mpr (by simpa using hab))
      · simp only [hm] at hr
        exact Or.inl hr

/-- Witness for C9 at concrete inputs: the self pair (5, 5) is refused on
the empty store, and the row created for the pair (2, 1) is canonical. -/
theorem create_match_no_self_and_canonical_witness :
    _create_match ({} : DB) 5 5 = ({}, none) ∧
      ((⟨1, 1, 2, true⟩ : MatchRow) ∈ ({} : DB).«matches» ∨
        (⟨1, 1, 2, true⟩ : MatchRow).user1_id <
          (⟨1, 1, 2, true⟩ : MatchRow).user2_id) :=
  ⟨(create_match_no_self_and_canonical {} 5 5).1,
   (create_match_no_self_and_canonical {} 2 1).2 ⟨1, 1, 2, true⟩ (by decide)⟩

/-! ## Lemmas shared by the match-creation claims -/

theorem matchesBetween_comm (db : DB) (a b : Nat) :
    matchesBetween db a b = matchesBetween db b a := by
  unfold matchesBetween
  exact List.filter_congr fun m _ => by rw [Bool.or_comm]

theorem matchesBetween_min_max (db : DB) (a b : Nat) :
    matchesBetween db (min a b) (max a b) = matchesBetween db a b := by
  rcases le_total a b with h | h
  · rw [min_eq_left h, max_eq_right h]
  · rw [min_eq_right h, max_eq_left h, matchesBetween_comm]

theorem create_match_likes (db : DB) (a b : Nat) :
    (_create_match db a b).1.likes = db.likes := by
  unfold _create_match
  split
  · rfl
  · cases hm : _get_match_between db (min a b) (max a b) <;> simp [hm]

theorem reciprocalMatchStep_of_existing (db : DB) (a b : Nat)
    (hrec : _check_reciprocal_like db a b = true)
    (hab : (a == b) = false)
    (m : MatchRow)
    (hm : _get_match_between db (min a b) (max a b) = some m) :
    (reciprocalMatchStep db a b).1 = db := by
  unfold reciprocalMatchStep _create_match
  rw [hrec, if_pos rfl, if_neg (by simp [hab])]
  simp only [hm]

/-! ## A lemma about the like upsert -/

theorem filter_map_if (key : α → Bool) (payload : α) (hk : key payload = true) :
    ∀ L : List α,
      ((L.map fun l => if key l then payload else l).filter key) =
        (L.filter key).map fun _ => payload
  | [] => rfl
  | x :: L => by
    by_cases hx : key x
    · simp [hx, hk, filter_map_if key payload hk L]
    · simp [hx, filter_map_if key payload hk L]

theorem insert_like_pair (db : DB) (f t : Nat) (m v : Option String)
    (h : (likesFor db f t).length ≤ 1) :
    likesFor (_insert_like db f t m v) f t =
      [{ from_user_id := f, to_user_id := t, message := m, video_url := v }] := by
  have hk : (fun l : LikeRow => l.from_user_id == f && l.to_user_id == t)
      ({ from_user_id := f, to_user_id := t, message := m,
         video_url := v } : LikeRow) = true := by simp
  unfold likesFor at h ⊢
  unfold _insert_like
  by_cases hany :
      db.likes.any (fun l => l.from_user_id == f && l.to_user_id == t)
  · simp only [hany, if_true]
    rw [filter_map_if (fun l : LikeRow => l.from_user_id == f && l.to_user_id == t)
      _ hk db.likes]
    obtain ⟨x, hx⟩ := List.any_eq_true.mp hany
    have hge : 0 <
        ((db.likes.filter fun l =>
            l.from_user_id == f && l.to_user_id == t)).length :=
      List.length_pos.mpr
        (List.ne_nil_of_mem (List.mem_filter.mpr ⟨hx.1, hx.2⟩))
    have hlen1 :
        ((db.likes.filter fun l =>
            l.from_user_id == f && l.to_user_id == t)).length = 1 :=
      Nat.le_antisymm h hge
    obtain ⟨a, ha⟩ := List.length_eq_one.mp hlen1
    rw [ha]
    rfl
  · rw [if_neg hany]
    have hnil :
        (db.likes.filter fun l =>
            l.from_user_id == f && l.to_user_id == t) = [] := by
      rw [List.filter_eq_nil_iff]
      intro a ha hka
      exact hany (List.any_eq_true.mpr ⟨a, ha, hka⟩)
    rw [List.filter_append, hnil]
    simp [hk]

/-- C3: liking the same target twice, with any two payloads, leaves exactly
one Like row for the ordered pair and it bears the second payload, provided
the unique-key constraint held before (at most one row for the pair). -/
theorem like_upsert_last_write_wins (db : DB) (f t : Nat)
    (m1 v1 m2 v2 : Option String) (h : (likesFor db f t).length ≤ 1) :
    likesFor (_insert_like (_insert_like db f t m1 v1) f t m2 v2) f t =
      [{ from_user_id := f, to_user_id := t, message := m2,
         video_url := v2 }] := by
  have h1 := insert_like_pair db f t m1 v1 h
  exact insert_like_pair _ f t m2 v2 (by rw [h1]; simp)

/-- Witness for C3: a like with text then a like with video from user 1 to
user 2 on the empty store leave one row with the video payload. -/
theorem like_upsert_last_write_wins_witness :
    likesFor (_insert_like (_insert_like ({} : DB) 1 2 (some "hi") none)
        1 2 none (some "v.mp4")) 1 2 =
      [{ from_user_id := 1, to_user_id := 2, message := none,
         video_url := some "v.mp4" }] :=
  like_upsert_last_write_wins {} 1 2 (some "hi") none none (some "v.mp4")
    (by decide)

/-- C2: for distinct users who like each other and have no Match row yet,
the reciprocity detection step creates exactly one Match row for the
unordered pair, stored canonically with the smaller id as user1_id, and
running the detection step a second time changes nothing. -/
theorem reciprocal_detection_single_canonical_match (db : DB) (a b : Nat)
    (hab : a ≠ b)
    (_hA : likesFor db a b ≠ [])
    (hB : likesFor db b a ≠ [])
    (h0 : matchesBetween db a b = []) :
    (matchesBetween (reciprocalMatchStep db a b).1 a b).length = 1 ∧
      (∀ m ∈ matchesBetween (reciprocalMatchStep db a b).1 a b,
        m.user1_id = min a b ∧ m.user2_id = max a b ∧
          m.user1_id < m.user2_id) ∧
      (reciprocalMatchStep (reciprocalMatchStep db a b).1 a b).1 =
        (reciprocalMatchStep db a b).1 := by
  have hrec : _check_reciprocal_like db a b = true := by
    obtain ⟨l, hl⟩ := List.exists_mem_of_ne_nil _ hB
    have hm := List.mem_filter.mp hl
    exact List.any_eq_true.mpr ⟨l, hm.1, hm.2⟩
  have habeq : (a == b) = false := by simp [hab]
  have hnone : _get_match_between db (min a b) (max a b) = none := by
    unfold _get_match_between
    rw [matchesBetween_min_max, h0]
    rfl
  have hstep : reciprocalMatchStep db a b =
      ({ db with
          «matches» := db.«matches» ++
            [{ id := db.next_match_id, user1_id := min a b,
               user2_id := max a b, is_active := true }],
          next_match_id := db.next_match_id + 1 },
        some { id := db.next_match_id, user1_id := min a b,
               user2_id := max a b, is_active := true }) := by
    unfold reciprocalMatchStep _create_match
    rw [hrec, if_pos rfl, if_neg (by simp [habeq])]
    simp only [hnone]
  have hpredr :
      (((⟨db.next_match_id, min a b, max a b, true⟩ : MatchRow).user1_id == a &&
        (⟨db.next_match_id, min a b, max a b, true⟩ : MatchRow).user2_id == b) ||
       ((⟨db.next_match_id, min a b, max a b, true⟩ : MatchRow).user1_id == b &&
        (⟨db.next_match_id, min a b, max a b, true⟩ : MatchRow).user2_id == a))
        = true := by
    rcases le_total a b with hle | hle
    · simp [min_eq_left hle, max_eq_right hle]
    · simp [min_eq_right hle, max_eq_left hle]
  have hafter : matchesBetween (reciprocalMatchStep db a b).1 a b =
      [{ id := db.next_match_id, user1_id := min a b, user2_id := max a b,
         is_active := true }] := by
    rw [hstep]
    show matchesBetween
        ({ db with
            «matches» := db.«matches» ++
              [{ id := db.next_match_id, user1_id := min a b,
                 user2_id := max a b, is_active := true }],
            next_match_id := db.next_match_id + 1 }) a b = _
    unfold matchesBetween at h0 ⊢
    rw [List.filter_append, h0, List.nil_append]
    exact List.filter_cons_of_pos hpredr
  refine ⟨by rw [hafter]; rfl, ?_, ?_⟩
  · intro mrow hmrow
    rw [hafter] at hmrow
    have hmr := List.mem_singleton.mp hmrow
    subst hmr
    exact ⟨rfl, rfl, min_lt_max.mpr hab⟩
  · have hlikes : (reciprocalMatchStep db a b).1.likes = db.likes := by
      unfold reciprocalMatchStep
      rw [hrec, if_pos rfl]
      exact create_match_likes db a b
    have hrec2 : _check_reciprocal_like (reciprocalMatchStep db a b).1 a b =
        true := by
      unfold _check_reciprocal_like at hrec ⊢
      rw [hlikes]
      exact hrec
    have hsome : _get_match_between (reciprocalMatchStep db a b).1
        (min a b) (max a b) =
        some { id := db.next_match_id, user1_id := min a b,
               user2_id := max a b, is_active := true } := by
      unfold _get_match_between
      rw [matchesBetween_min_max, hafter]
      rfl
    exact reciprocalMatchStep_of_existing _ a b hrec2 habeq _ hsome

/-- Witness for C2: users 4 and 9 like each other on a store with no match;
detection yields one canonical match row and repeating it changes nothing. -/
theorem reciprocal_detection_single_canonical_match_witness :
    (matchesBetween
        (reciprocalMatchStep
          ({ likes := [⟨4, 9, none, none⟩, ⟨9, 4, some "hey", none⟩] } : DB)
          4 9).1 4 9).length = 1 ∧
      (∀ m ∈ matchesBetween
          (reciprocalMatchStep
            ({ likes := [⟨4, 9, none, none⟩,
                ⟨9, 4, some "hey", none⟩] } : DB) 4 9).1 4 9,
        m.user1_id = min 4 9 ∧ m.user2_id = max 4 9 ∧
          m.user1_id < m.user2_id) ∧
      (reciprocalMatchStep
          (reciprocalMatchStep
            ({ likes := [⟨4, 9, none, none⟩,
                ⟨9, 4, some "hey", none⟩] } : DB) 4 9).1 4 9).1 =
        (reciprocalMatchStep
          ({ likes := [⟨4, 9, none, none⟩,
              ⟨9, 4, some "hey", none⟩] } : DB) 4 9).1 :=
  reciprocal_detection_single_canonical_match
    { likes := [⟨4, 9, none, none⟩, ⟨9, 4, some "hey", none⟩] } 4 9
    (by decide) (by decide) (by decide) (by decide)

/-- C6: a report whose reason is empty after trimming is rejected and the
store is unchanged; a report with a non-empty reason appends exactly one
Complaint row, aimed at the counterpart of the user's active chat when one
exists and at nobody otherwise. -/
theorem cmd_report_spec (db : DB) (uid : Nat) (text : String) :
    (pyStrip (afterFirstSpace text) = "" →
        cmd_report db uid text = (db, .usage)) ∧
      (pyStrip (afterFirstSpace text) ≠ "" →
        (cmd_report db uid text).1.complaints =
            db.complaints ++
              [{ from_user_id := some uid,
                 against_user_id :=
                   match _get_active_chat_for_user db uid with
                   | some (_c, m) => _other_user_id m uid
                   | none => none,
                 reason := pyStrip (afterFirstSpace text) }] ∧
          (cmd_report db uid text).2 = .sent ∧
          (cmd_report db uid text).1.users = db.users ∧
          (cmd_report db uid text).1.chats = db.chats ∧
          (cmd_report db uid text).1.likes = db.likes ∧
          (cmd_report db uid text).1.«matches» = db.«matches») := by
  constructor
  · intro he
    unfold cmd_report
    rw [if_pos he]
  · intro hne
    unfold cmd_report
    rw [if_neg hne]
    exact ⟨rfl, rfl, rfl, rfl, rfl, rfl⟩

/-- Witness for C6: on the empty store, an argument-less report is rejected
unchanged, and a report of spam appends the single untargeted complaint. -/
theorem cmd_report_spec_witness :
    cmd_report ({} : DB) 1 "/report  " = ({}, .usage) ∧
      (cmd_report ({} : DB) 1 "/report spam").1.complaints =
        [{ from_user_id := some 1, against_user_id := none,
           reason := "spam" }] := by
  refine ⟨(cmd_report_spec {} 1 "/report  ").1 (by decide), ?_⟩
  have h := ((cmd_report_spec {} 1 "/report spam").2 (by decide)).1
  rw [h]
  decide

/-- C10: an approve callback whose match id resolves, and whose two users
resolve to telegram ids, sends each party the other's contact — the Chats
table is never consulted (the result is invariant under replacing it), and
only an unresolvable match id is answered with match-not-found and no
sends. -/
theorem share_contact_approve_spec (db : DB) (mid : Nat) (m : MatchRow)
    (ta tb : Nat)
    (hm : _get_match_by_id db mid = some m)
    (ha : _tg_id db m.user1_id = some ta)
    (hb : _tg_id db m.user2_id = some tb) :
    cb_share_contact db .approve mid =
        ([(ta, .approvedContact tb), (tb, .approvedContact ta)], .approved) ∧
      (∀ cs : List ChatRow,
        cb_share_contact { db with chats := cs } .approve mid =
          cb_share_contact db .approve mid) ∧
      ∀ mid2, _get_match_by_id db mid2 = none →
        cb_share_contact db .approve mid2 = ([], .matchNotFound) := by
  refine ⟨?_, fun cs => rfl, ?_⟩
  · unfold cb_share_contact
    rw [hm]
    simp only [ha, hb]
  · intro mid2 h2
    unfold cb_share_contact
    rw [h2]

/-- C4: whenever the feed selector returns a profile, that profile is not
among the viewer's recently viewed ids (48-hour window), and if any profile
passing the common filters has an unexpired boost, the returned profile is
boosted with the largest boosted_until among such candidates. -/
theorem fetch_next_profile_spec (db : DB) (viewerId : Nat) (now : Int)
    (p : ProfileRow) (h : _fetch_next_profile db viewerId now = some p) :
    p.id ∉ _get_recently_viewed_ids db viewerId now ∧
      ∀ q ∈ db.profiles,
        commonFilters viewerId (feedGenderFilter db viewerId)
            (feedCityFilter db viewerId)
            (_get_recently_viewed_ids db viewerId now) q = true →
          boostActive now q = true →
          boostActive now p = true ∧ boostKey q ≤ boostKey p := by
  have htake20 : ∀ l : List ProfileRow, (l.take 20).head? = l.head? :=
    fun l => head?_take_succ l 19
  have htake50 : ∀ l : List ProfileRow, (l.take 50).head? = l.head? :=
    fun l => head?_take_succ l 49
  simp only [_fetch_next_profile] at h
  rw [htake20, htake50] at h
  have not_viewed :
      commonFilters viewerId (feedGenderFilter db viewerId)
        (feedCityFilter db viewerId)
        (_get_recently_viewed_ids db viewerId now) p = true →
      p.id ∉ _get_recently_viewed_ids db viewerId now := by
    intro hc hbad
    simp [commonFilters, List.elem_iff, hbad] at hc
  cases hs1 : sortDescBy boostKey (boostedPoolSrc db viewerId now) with
  | nil =>
    rw [hs1] at h
    simp only [List.head?_nil] at h
    cases hs2 :
        sortDescBy (fun q => q.created_at) (recencyPoolSrc db viewerId now) with
    | nil => rw [hs2] at h; simp at h
    | cons a t =>
      rw [hs2] at h
      simp only [List.head?_cons, Option.some.injEq] at h
      subst h
      have hpmem : a ∈ recencyPoolSrc db viewerId now :=
        mem_sortDescBy_iff.mp (hs2 ▸ List.mem_cons_self a t)
      have hc := (List.mem_filter.mp hpmem).2
      refine ⟨not_viewed hc, ?_⟩
      intro q hq hqc hqb
      exfalso
      have hqpool : q ∈ boostedPoolSrc db viewerId now :=
        List.mem_filter.mpr ⟨hq, by simp [hqc, hqb]⟩
      have : q ∈ ([] : List ProfileRow) := hs1 ▸ mem_sortDescBy_iff.mpr hqpool
      simp at this
  | cons b bt =>
    rw [hs1] at h
    simp only [List.head?_cons, Option.some.injEq] at h
    subst h
    have hpmem : b ∈ boostedPoolSrc db viewerId now :=
      mem_sortDescBy_iff.mp (hs1 ▸ List.mem_cons_self b bt)
    have hcb := (List.mem_filter.mp hpmem).2
    have hc : commonFilters viewerId (feedGenderFilter db viewerId)
        (feedCityFilter db viewerId)
        (_get_recently_viewed_ids db viewerId now) b = true :=
      (Bool.and_eq_true_iff.mp hcb).1
    have hboost : boostActive now b = true :=
      (Bool.and_eq_true_iff.mp hcb).2
    refine ⟨not_viewed hc, ?_⟩
    intro q hq hqc hqb
    have hqpool : q ∈ boostedPoolSrc db viewerId now :=
      List.mem_filter.mpr ⟨hq, by simp [hqc, hqb]⟩
    refine ⟨hboost, ?_⟩
    exact head?_sortDescBy_ge boostKey (boostedPoolSrc db viewerId now) b
      (by rw [hs1]; rfl) q hqpool

/-- Witness for C4: on the concrete feed store the selector picks the
boosted profile 2; it was not recently viewed and its boost dominates. -/
theorem fetch_next_profile_spec_witness :
    c4p.id ∉ _get_recently_viewed_ids c4db 1 200000 ∧
      (boostActive 200000 c4p = true ∧ boostKey c4p ≤ boostKey c4p) :=
  ⟨(fetch_next_profile_spec c4db 1 200000 c4p (by decide)).1,
   (fetch_next_profile_spec c4db 1 200000 c4p (by decide)).2 c4p (by decide)
     (by decide) (by decide)⟩

/-- Witness for C10 on the two-user store with match id 3 and no chats. -/
theorem share_contact_approve_spec_witness :
    cb_share_contact c10db .approve 3 =
        ([(701, .approvedContact 802), (802, .approvedContact 701)],
          .approved) ∧
      cb_share_contact c10db .approve 99 = ([], .matchNotFound) :=
  ⟨(share_contact_approve_spec c10db 3 ⟨3, 7, 8, true⟩ 701 802
      (by decide) (by decide) (by decide)).1,
   (share_contact_approve_spec c10db 3 ⟨3, 7, 8, true⟩ 701 802
      (by decide) (by decide) (by decide)).2.2 99 (by decide)⟩

/-! ## Lemmas for the profile upsert -/

theorem upsert_user_basic_profiles (db : DB) (tg : Nat)
    (a b c : Option String) :
    (upsert_user_basic db tg a b c).profiles = db.profiles := by
  unfold upsert_user_basic
  split <;> rfl

theorem upsert_user_basic_next_profile_id (db : DB) (tg : Nat)
    (a b c : Option String) :
    (upsert_user_basic db tg a b c).next_profile_id = db.next_profile_id := by
  unfold upsert_user_basic
  split <;> rfl

theorem filter_map_update (uid : Nat) (data : RegData) :
    ∀ (l : List ProfileRow) (ex : ProfileRow),
      ((l.map fun p => p.id).Nodup) →
      (l.filter fun p => p.user_id == uid) = [ex] →
      ((l.map fun p => if p.id == ex.id then profileUpdatePayload uid data p
          else p).filter fun p => p.user_id == uid) =
        [profileUpdatePayload uid data ex]
  | [], ex, _, hf => by simp at hf
  | c :: t, ex, hn, hf => by
    obtain ⟨hnotin, hn'⟩ := List.nodup_cons.mp hn
    rw [List.filter_cons] at hf
    rw [List.map_cons, List.filter_cons]
    by_cases hc : (c.user_id == uid) = true
    · rw [if_pos hc] at hf
      have hce : c = ex := (List.cons_eq_cons.mp hf).1
      have htnil : (t.filter fun p => p.user_id == uid) = [] :=
        (List.cons_eq_cons.mp hf).2
      subst hce
      have hmapped : ((t.map fun p =>
          if p.id == c.id then profileUpdatePayload uid data p else p).filter
            fun p => p.user_id == uid) = [] := by
        rw [List.filter_eq_nil_iff]
        intro p hp
        obtain ⟨p0, hp0, hp0e⟩ := List.mem_map.mp hp
        have hpid : (p0.id == c.id) = false := by
          rcases Bool.eq_false_or_eq_true (p0.id == c.id) with hcase | hcase
          on_goal 2 => exact hcase
          · exfalso
            apply hnotin
            have heq : p0.id = c.id := beq_iff_eq.mp hcase
            show c.id ∈ t.map fun p => p.id
            rw [← heq]
            exact List.mem_map_of_mem (fun p => p.id) hp0
        rw [hpid] at hp0e
        simp only [Bool.false_eq_true, if_false] at hp0e
        subst hp0e
        intro hcontra
        exact List.filter_eq_nil_iff.mp htnil p0 hp0 hcontra
      have hfc : (if (c.id == c.id) = true then profileUpdatePayload uid data c
          else c) = profileUpdatePayload uid data c :=
        if_pos (beq_self_eq_true c.id)
      rw [hfc, if_pos (by exact beq_self_eq_true uid), hmapped]
    · rw [if_neg hc] at hf
      have hex_mem : ex ∈ t :=
        List.mem_of_mem_filter (hf ▸ List.mem_cons_self ex [])
      have hcid : (c.id == ex.id) = false := by
        rcases Bool.eq_false_or_eq_true (c.id == ex.id) with hcase | hcase
        on_goal 2 => exact hcase
        · exfalso
          apply hnotin
          have heq : c.id = ex.id := beq_iff_eq.mp hcase
          show c.id ∈ t.map fun p => p.id
          rw [heq]
          exact List.mem_map_of_mem (fun p => p.id) hex_mem
      rw [hcid]
      simp only [Bool.false_eq_true, if_false]
      rw [if_neg hc]
      exact filter_map_update uid data t ex hn' hf

/-- C5: completing the registration dialogue persists the profile as an
idempotent upsert: starting from a store obeying the primary-key and
unique-profile constraints, afterwards exactly one Profile row exists for
the user; it carries the dialogue data, and when a profile already existed
its boosted_until and created_at are preserved, while a fresh insert gets a
24-hour boost window and created_at now. -/
theorem profile_upsert_idempotent (db : DB) (tg : Nat) (data : RegData)
    (now : Int) (u : UserRow)
    (hu : get_user_by_tg_id
        (upsert_user_basic db tg data.username data.first_name data.last_name)
        tg = some u)
    (hnodup : ((db.profiles.map fun p => p.id)).Nodup)
    (hp : (profilesFor db u.id).length ≤ 1) :
    (profilesFor (_create_or_update_profile db tg data now) u.id).length = 1 ∧
      ∀ p ∈ profilesFor (_create_or_update_profile db tg data now) u.id,
        p.name = data.name ∧ p.gender = data.gender ∧ p.age = data.age ∧
          p.city = data.city ∧ p.photos = data.photos ∧ p.bio = data.bio ∧
          p.is_active = true ∧
          (match (profilesFor db u.id).head? with
           | some ex => p.boosted_until = ex.boosted_until ∧
               p.created_at = ex.created_at
           | none => p.boosted_until = some (now + 86400) ∧
               p.created_at = now) := by
  unfold profilesFor at hp ⊢
  unfold _create_or_update_profile
  simp only [hu, upsert_user_basic_profiles, upsert_user_basic_next_profile_id]
  cases hex : db.profiles.filter fun p => p.user_id == u.id with
  | nil =>
    simp only [hex, List.head?_nil]
    constructor
    · rw [List.filter_append, hex, List.nil_append]
      rw [List.filter_cons_of_pos (by simp)]
      rfl
    · intro p hpmem
      rw [List.filter_append, hex, List.nil_append] at hpmem
      rw [List.filter_cons_of_pos (by simp)] at hpmem
      have hpe := List.mem_singleton.mp hpmem
      subst hpe
      exact ⟨rfl, rfl, rfl, rfl, rfl, rfl, rfl, rfl, rfl⟩
  | cons ex tl =>
    have htl : tl = [] := by
      rw [hex] at hp
      simp only [List.length_cons] at hp
      exact List.eq_nil_of_length_eq_zero (Nat.le_zero.mp
        (Nat.le_of_succ_le_succ hp))
    subst htl
    simp only [hex, List.head?_cons]
    have hfm := filter_map_update u.id data db.profiles ex hnodup hex
    constructor
    · rw [hfm]
      rfl
    · intro p hpmem
      rw [hfm] at hpmem
      have hpe := List.mem_singleton.mp hpmem
      subst hpe
      exact ⟨rfl, rfl, rfl, rfl, rfl, rfl, rfl, rfl, rfl⟩

/-! ## The initiator bound of StartChat -/

/-- C1, amended: after a successful StartChat the initiator holds exactly
one active chat across their active matches, provided they have at most 200
active matches (the limit of the deactivation query); the bound for the
counterpart does not hold in general. -/
theorem start_chat_initiator_single_active (db : DB) (uid : Nat) (now : Int)
    (cid : Nat)
    (hlen : ((db.«matches».filter fun m =>
        m.is_active && (m.user1_id == uid || m.user2_id == uid))).length ≤ 200)
    (h : (cmd_start_chat db uid now).2 = .started cid) :
    activeChatCountFor (cmd_start_chat db uid now).1 uid = 1 := by
  have hpredeq : (fun m : MatchRow =>
      (!true || m.is_active) && (m.user1_id == uid || m.user2_id == uid)) =
      (fun m : MatchRow =>
        m.is_active && (m.user1_id == uid || m.user2_id == uid)) := rfl
  by_cases hms : (_get_matches_for_user db uid true 50).isEmpty = true
  · exfalso
    simp only [cmd_start_chat, hms, if_true] at h
    simp at h
  by_cases hfind : ∃ cand, (_get_matches_for_user db uid true 50).find?
      (fun m => !(_has_active_chat_for_match db m.id)) = some cand
  case neg =>
    exfalso
    rcases hnone : (_get_matches_for_user db uid true 50).find?
        (fun m => !(_has_active_chat_for_match db m.id)) with _ | cand
    · simp only [cmd_start_chat, if_neg hms, hnone] at h
      simp at h
    · exact hfind ⟨cand, hnone⟩
  obtain ⟨cand, hcand⟩ := hfind
  have heq : cmd_start_chat db uid now =
      ((_create_chat (_deactivate_all_user_chats db uid) cand.id now).1,
        .started (_create_chat (_deactivate_all_user_chats db uid) cand.id
          now).2.id) := by
    simp only [cmd_start_chat, if_neg hms, hcand]
  rw [heq]
  -- facts about the candidate match
  have hcand_mem50 : cand ∈ _get_matches_for_user db uid true 50 :=
    List.mem_of_find?_eq_some hcand
  have hcand_filter : cand ∈ db.«matches».filter fun m =>
      m.is_active && (m.user1_id == uid || m.user2_id == uid) := by
    rw [← hpredeq]
    exact List.take_subset 50 _ hcand_mem50
  have hcand_in_db : cand ∈ db.«matches» :=
    (List.mem_filter.mp hcand_filter).1
  have hcand_pred : (cand.is_active &&
      (cand.user1_id == uid || cand.user2_id == uid)) = true :=
    (List.mem_filter.mp hcand_filter).2
  -- the deactivation step touches every chat of the user's active matches
  have hlen' : ((db.«matches».filter fun m =>
      (!true || m.is_active) &&
        (m.user1_id == uid || m.user2_id == uid))).length ≤ 200 := by
    rw [hpredeq]
    exact hlen
  have htake : ((db.«matches».filter fun m =>
      (!true || m.is_active) &&
        (m.user1_id == uid || m.user2_id == uid))).take 200 =
      db.«matches».filter fun m =>
        (!true || m.is_active) && (m.user1_id == uid || m.user2_id == uid) :=
    List.take_of_length_le hlen'
  have hfilter_ne : (db.«matches».filter fun m =>
      (!true || m.is_active) &&
        (m.user1_id == uid || m.user2_id == uid)) ≠ [] := by
    intro hnil
    apply hms
    show (((db.«matches».filter fun m =>
        (!true || m.is_active) &&
          (m.user1_id == uid || m.user2_id == uid))).take 50).isEmpty = true
    rw [hnil]
    rfl
  have hmids_ne : ¬((((_get_matches_for_user db uid true 200).map
      fun m => m.id)).isEmpty = true) := by
    intro hE
    apply hfilter_ne
    have hnil := List.isEmpty_iff.mp hE
    rw [_get_matches_for_user, htake] at hnil
    exact List.map_eq_nil_iff.mp hnil
  have hdeact : _deactivate_all_user_chats db uid =
      { db with chats := db.chats.map fun c =>
          if (((_get_matches_for_user db uid true 200).map
              fun m => m.id)).contains c.match_id && c.is_active then
            { c with is_active := false }
          else c } := by
    unfold _deactivate_all_user_chats
    rw [if_neg hmids_ne]
  rw [hdeact]
  unfold _create_chat activeChatCountFor
  simp only [List.filter_append]
  have hA : ∀ c', c' ∈ (db.chats.map fun c =>
      if (((_get_matches_for_user db uid true 200).map
          fun m => m.id)).contains c.match_id && c.is_active then
        { c with is_active := false }
      else c) →
      ¬((c'.is_active && db.«matches».any fun m =>
          m.is_active && m.id == c'.match_id &&
            (m.user1_id == uid || m.user2_id == uid)) = true) := by
    intro c' hc'
    obtain ⟨c0, hc0, hc0e⟩ := List.mem_map.mp hc'
    by_cases hd : ((((_get_matches_for_user db uid true 200).map
        fun m => m.id)).contains c0.match_id && c0.is_active) = true
    · rw [if_pos hd] at hc0e
      subst hc0e
      simp
    · rw [if_neg hd] at hc0e
      subst hc0e
      intro hcnt
      apply hd
      obtain ⟨hact, hany⟩ := Bool.and_eq_true_iff.mp hcnt
      obtain ⟨m, hm_mem, hm_pred⟩ := List.any_eq_true.mp hany
      obtain ⟨hm1, hm_side⟩ := Bool.and_eq_true_iff.mp hm_pred
      obtain ⟨hm_act, hm_id⟩ := Bool.and_eq_true_iff.mp hm1
      have hm_filter : m ∈ db.«matches».filter fun mm =>
          (!true || mm.is_active) &&
            (mm.user1_id == uid || mm.user2_id == uid) := by
        rw [hpredeq]
        exact List.mem_filter.mpr ⟨hm_mem, by simp [hm_act, hm_side]⟩
      have hmid_in : c0.match_id ∈ ((_get_matches_for_user db uid true 200).map
          fun mm => mm.id) := by
        rw [_get_matches_for_user, htake]
        rw [← beq_iff_eq.mp hm_id]
        exact List.mem_map_of_mem (fun mm => mm.id) hm_filter
      rw [hact]
      simp [List.elem_iff, hmid_in]
  have hAnil : ((db.chats.map fun c =>
      if (((_get_matches_for_user db uid true 200).map
          fun m => m.id)).contains c.match_id && c.is_active then
        { c with is_active := false }
      else c).filter fun c' =>
        c'.is_active && db.«matches».any fun m =>
          m.is_active && m.id == c'.match_id &&
            (m.user1_id == uid || m.user2_id == uid)) = [] :=
    List.filter_eq_nil_iff.mpr hA
  have hcand_bits := Bool.and_eq_true_iff.mp hcand_pred
  have hB : (db.«matches».any fun m =>
      m.is_active && m.id == cand.id &&
        (m.user1_id == uid || m.user2_id == uid)) = true :=
    List.any_eq_true.mpr ⟨cand, hcand_in_db, by
      simp [hcand_bits.1, hcand_bits.2]⟩
  rw [hAnil, List.nil_append]
  simp [List.filter_cons, hB]

/-- Witness for the amended C1: on a store holding the single match (1, 2)
and no chat, StartChat by user 1 leaves user 1 with exactly one active
chat. -/
theorem start_chat_initiator_single_active_witness :
    activeChatCountFor
      (cmd_start_chat ({ «matches» := [⟨1, 1, 2, true⟩] } : DB) 1 5).1 1 = 1 :=
  start_chat_initiator_single_active { «matches» := [⟨1, 1, 2, true⟩] } 1 5 1
    (by decide) (by decide)

/-- Witness for C5: after telegram user 500 registered once and then
completed a second run with changed data, exactly one Profile row exists
for the user. -/
theorem profile_upsert_idempotent_witness :
    (profilesFor (_create_or_update_profile c5db1 500 c5data2 99999)
        1).length = 1 :=
  (profile_upsert_idempotent c5db1 500 c5data2 99999
    { id := 1, tg_id := 500, username := none, first_name := none,
      last_name := none, is_blocked := false }
    (by decide) (by decide) (by decide)).1

end TgBot
